import Mathlib

/-!
Verification of the MotionMatch retrieval pipeline against its design
specification.  The definitions below are shallow embeddings of the Python
source (src/motionmatch): the per-video indexing task, its retry driver,
the query cache, the search pipeline with temporal re-ranking, the job ETA
computation, and the anomaly detector.  Machine floats are modelled by exact
arithmetic (ℚ or ℝ); store-visible effects are modelled as explicit traces
over explicit store states.
-/

namespace MotionMatch

/-! ### The indexing task (workers/tasks.py, `index_video_task`)

A single attempt of `index_video_task` performs, in source order:

1. `update_indexing_status(video_id, "processing")`          (line 21)
2. download / validate the local file                        (lines 24-31)
3. `encoder_service.encode_video(local_path)`                (line 69)
4. `get_video_duration`                                      (line 72)
5. `vector_db.insert_video(...)`                             (line 75)
6. `store_temporal_features(video_id, ...)`                  (line 87)
7. `update_video_metadata(video_id, ...)`                    (line 105)
8. remove the temp file, `update_indexing_status("completed")` (lines 108-112)

On any exception the handler (lines 119-125) runs
`update_indexing_status(video_id, "failed", error=...)` and re-raises via
`self.retry`.  The handler deletes nothing from any store.  We record the
store-visible operations of one attempt as a trace, parameterized by an
injected failure point. -/

/-- A store-visible operation performed by the indexing task. -/
inductive StoreOp where
  | statusUpdate (vid : String) (st : String)
  | encodeCall (vid : String)
  | vectorInsert (vid : String)
  | temporalWrite (vid : String)
  | metadataUpsert (vid : String)
  deriving DecidableEq, Repr

/-- Points at which an injected exception aborts the attempt body. -/
inductive FailPoint where
  | atValidate
  | atEncode
  | atVectorInsert
  | atTemporalWrite
  | atMetadataUpsert
  deriving DecidableEq, Repr

/-- The trace of store-visible operations of one attempt of
`index_video_task`, given an optional injected failure point.  The order of
the success branch is the order of the source: status update, encode, vector
insert, temporal write, metadata upsert, final status update.  Every failure
branch ends with the handler's `update_indexing_status(video_id, "failed")`
and performs no deletion. -/
def indexVideoAttempt (vid : String) (fail : Option FailPoint) : List StoreOp :=
  StoreOp.statusUpdate vid "processing" ::
    match fail with
    | some .atValidate => [.statusUpdate vid "failed"]
    | some .atEncode => [.statusUpdate vid "failed"]
    | some .atVectorInsert => [.encodeCall vid, .statusUpdate vid "failed"]
    | some .atTemporalWrite =>
        [.encodeCall vid, .vectorInsert vid, .statusUpdate vid "failed"]
    | some .atMetadataUpsert =>
        [.encodeCall vid, .vectorInsert vid, .temporalWrite vid,
         .statusUpdate vid "failed"]
    | none =>
        [.encodeCall vid, .vectorInsert vid, .temporalWrite vid,
         .metadataUpsert vid, .statusUpdate vid "completed"]

/-- The contents of the three stores: video ids present in the vector index
(C2), video ids whose temporal matrix file exists (C3), video ids with a
metadata row (C4), and the status history (newest first) written through
`update_indexing_status`. -/
structure Stores where
  vector : List String
  temporal : List String
  meta : List String
  status : List (String × String)
  deriving DecidableEq, Repr

def emptyStores : Stores := ⟨[], [], [], []⟩

/-- Idempotent insert: both the vector index and the temporal store overwrite
by video id, so presence is what matters. -/
def insertNew (x : String) (l : List String) : List String :=
  if x ∈ l then l else x :: l

/-- Effect of one store operation on the three stores.  No operation of the
indexing task ever removes an entry. -/
def applyOp (s : Stores) : StoreOp → Stores
  | .statusUpdate vid st => { s with status := (vid, st) :: s.status }
  | .encodeCall _ => s
  | .vectorInsert vid => { s with vector := insertNew vid s.vector }
  | .temporalWrite vid => { s with temporal := insertNew vid s.temporal }
  | .metadataUpsert vid => { s with meta := insertNew vid s.meta }

def runOps (s : Stores) (ops : List StoreOp) : Stores :=
  ops.foldl applyOp s

/-- Current status of a video: the newest status entry written for it. -/
def statusOf (s : Stores) (vid : String) : Option String :=
  (s.status.find? (fun p => p.1 == vid)).map (·.2)

/-- `a` occurs strictly before `b` in the trace `l`. -/
def OccursBefore (l : List StoreOp) (a b : StoreOp) : Prop :=
  ∃ i : Fin l.length, ∃ j : Fin l.length, i.1 < j.1 ∧ l.get i = a ∧ l.get j = b

instance (l : List StoreOp) (a b : StoreOp) : Decidable (OccursBefore l a b) := by
  unfold OccursBefore
  infer_instance

/-! ### The retry driver (workers/tasks.py, Celery semantics)

`index_video_task` is declared with `max_retries=3` (line 16).  The handler
at line 125 re-raises with `countdown=60 * (2 ** self.request.retries)`: the
k-th failed attempt (retries = k) schedules the next attempt after
`60 * 2^k` seconds.  When retries are exhausted, `self.retry` raises
`MaxRetriesExceededError` and the task ends with the "failed" status already
written at line 122.  The handler treats every exception kind identically:
there is no special case for encoder decode errors. -/

/-- Error kinds that can abort an attempt.  The source's `except Exception`
handler does not distinguish them. -/
inductive ErrKind where
  | decodeError
  | ioError
  | otherError
  deriving DecidableEq, Repr

/-- Observable events of the task's retry loop. -/
inductive TaskEvent where
  | attemptRun (k : ℕ)
  | statusSet (st : String) (err : Option ErrKind)
  | retryScheduled (countdownSeconds : ℕ)
  | maxRetriesHit
  deriving DecidableEq, Repr

/-- Execution of `index_video_task` from attempt number `k`, with `fuel`
attempts remaining.  `attempts k` is the outcome of the k-th attempt body
(`none` = success).  Mirrors the try/except of lines 19-125: every failure
writes status "failed" and, while `k < maxRetries`, schedules a retry after
`60 * 2^k` seconds; all error kinds take the same path. -/
def runTaskFrom (attempts : ℕ → Option ErrKind) (maxRetries : ℕ) :
    ℕ → ℕ → List TaskEvent
  | _, 0 => []
  | k, fuel + 1 =>
    TaskEvent.attemptRun k :: TaskEvent.statusSet "processing" none ::
      match attempts k with
      | none => [TaskEvent.statusSet "completed" none]
      | some e =>
          TaskEvent.statusSet "failed" (some e) ::
            if k < maxRetries then
              TaskEvent.retryScheduled (60 * 2 ^ k) ::
                runTaskFrom attempts maxRetries (k + 1) fuel
            else [TaskEvent.maxRetriesHit]

/-- Full run of the task: initial attempt plus up to `max_retries = 3`
retries. -/
def runTask (attempts : ℕ → Option ErrKind) : List TaskEvent :=
  runTaskFrom attempts 3 0 4

/-- The retry countdowns that appear in a run, in order. -/
def retryDelays (evs : List TaskEvent) : List ℕ :=
  evs.filterMap fun e =>
    match e with
    | .retryScheduled c => some c
    | _ => none

/-- The attempt numbers executed in a run, in order. -/
def attemptsRun (evs : List TaskEvent) : List ℕ :=
  evs.filterMap fun e =>
    match e with
    | .attemptRun k => some k
    | _ => none

/-! ### The query cache (services/search.py, `_encode_query_video`)

Lines 67-144: compute a fingerprint (md5 of the first MiB), check the
in-memory cache under `cache_lock`, then the disk cache (promoting a hit to
memory), and otherwise call the encoder, write the disk file and then the
memory entry.  The encoder call and both writes happen OUTSIDE any lock and
outside any per-fingerprint critical section.  We model each query as a
thread stepping through the atomic actions of that code; a scheduler
interleaves threads one atomic action at a time. -/

/-- Program counter of a query thread inside `_encode_query_video`.
`checkMem` is the locked memory lookup (lines 84-87), `checkDisk` the disk
probe (line 94), `encodeRun` the encoder call (line 124), `writeDisk` the
`np.savez` (line 128), `writeMem` the locked memory insert (lines 110-111
on the disk-hit path, lines 141-142 on the encode path). -/
inductive QPC where
  | checkMem
  | checkDisk
  | encodeRun
  | writeDisk
  | writeMem
  | finished
  deriving DecidableEq, Repr

/-- A query thread: its fingerprint and program counter. -/
structure QThread where
  fp : String
  pc : QPC
  deriving DecidableEq, Repr

/-- Shared cache state: fingerprints present in the memory tier, in the disk
tier, and the log of encoder invocations (thread index, fingerprint). -/
structure CacheSt where
  mem : List String
  disk : List String
  encodeLog : List (ℕ × String)
  deriving DecidableEq, Repr

/-- One atomic action of thread `i`.  Each case is one critical section or
one unguarded statement of `_encode_query_video`. -/
def stepThread (i : ℕ) (s : CacheSt) (t : QThread) : CacheSt × QThread :=
  match t.pc with
  | .checkMem =>
      if t.fp ∈ s.mem then (s, { t with pc := .finished })
      else (s, { t with pc := .checkDisk })
  | .checkDisk =>
      if t.fp ∈ s.disk then (s, { t with pc := .writeMem })
      else (s, { t with pc := .encodeRun })
  | .encodeRun =>
      ({ s with encodeLog := s.encodeLog ++ [(i, t.fp)] },
       { t with pc := .writeDisk })
  | .writeDisk =>
      ({ s with disk := insertNew t.fp s.disk }, { t with pc := .writeMem })
  | .writeMem =>
      ({ s with mem := insertNew t.fp s.mem }, { t with pc := .finished })
  | .finished => (s, t)

/-- A system of concurrent query threads over the shared cache. -/
structure QSys where
  st : CacheSt
  threads : List QThread
  deriving DecidableEq, Repr

/-- The scheduler steps thread `i` (no-op for an out-of-range index). -/
def schedStep (sys : QSys) (i : ℕ) : QSys :=
  match sys.threads[i]? with
  | none => sys
  | some t =>
      let r := stepThread i sys.st t
      ⟨r.1, sys.threads.set i r.2⟩

/-- Run a schedule: a list of thread indices, stepped left to right. -/
def runSched (sys : QSys) (schedule : List ℕ) : QSys :=
  schedule.foldl schedStep sys

/-- Number of encoder invocations charged to thread `i`. -/
def encodesOf (sys : QSys) (i : ℕ) : ℕ :=
  (sys.st.encodeLog.filter (fun p => p.1 = i)).length

/-- Number of encoder invocations for fingerprint `f`. -/
def encodesFor (sys : QSys) (f : String) : ℕ :=
  (sys.st.encodeLog.filter (fun p => p.2 = f)).length

/-- Remaining-work rank of a program counter; every step of a non-finished
thread strictly decreases it, so no thread can block another. -/
def pcRank : QPC → ℕ
  | .checkMem => 5
  | .checkDisk => 4
  | .encodeRun => 3
  | .writeDisk => 2
  | .writeMem => 1
  | .finished => 0

/-- How many more encoder invocations a thread at this program counter can
still perform: one before the encoder call, none after it. -/
def threadPotential : QPC → ℕ
  | .checkMem => 1
  | .checkDisk => 1
  | .encodeRun => 1
  | .writeDisk => 0
  | .writeMem => 0
  | .finished => 0

/-- Encoding potential of slot `i`: the potential of the thread there, or 1
for an index with no thread (which then must have logged nothing). -/
def potentialAt (sys : QSys) (i : ℕ) : ℕ :=
  match sys.threads[i]? with
  | some t => threadPotential t.pc
  | none => 1

/-- Invariant of the query-cache system: each thread slot has performed at
most one encoder call, counting a pending one. -/
def CacheInv (sys : QSys) : Prop :=
  ∀ i : ℕ, encodesOf sys i + potentialAt sys i ≤ 1

/-! ### The search pipeline (services/search.py, `search`)

Lines 25-61: the service always runs `_encode_query_video` first (line 34),
then the vector search with fan-out `config.SEARCH_TOP_K` (line 37), and
finally truncates to `request.top_k` — either inside `_rerank_results`
(line 226) or directly via `candidates[:request.top_k]` (line 52).  There is
no early return for `top_k = 0`. -/

/-- Sequential view of the two cache tiers for a single query. -/
structure SearchCaches where
  mem : List String
  disk : List String

/-- One run of `SearchService.search`: the returned result list and the
number of encoder invocations it performs.  `cands` is the candidate list
returned by the vector search, `rerankFn` the body of `_rerank_results`
before its final truncation (which the source applies to `request.top_k`).
The encoder runs exactly when both cache tiers miss the fingerprint; this
happens before the candidate retrieval and regardless of `topK`. -/
def searchRun {α : Type} (c : SearchCaches) (fp : String) (topK : ℕ)
    (rerank : Bool) (cands : List α) (rerankFn : List α → List α) :
    List α × ℕ :=
  let encodes := if fp ∈ c.mem then 0 else if fp ∈ c.disk then 0 else 1
  let results :=
    if rerank && !cands.isEmpty then (rerankFn cands).take topK
    else cands.take topK
  (results, encodes)

/-! ### Job progress and ETA (db/postgres.py, `get_indexing_job`)

Lines 199-234: the ETA branch is entered only when `job.started_at` is set
AND `job.completed > 0` (line 209).  Inside that branch, line 210 computes
`(func.now() - job.started_at).total_seconds()`, where `func` is
SQLAlchemy's SQL-function constructor: `func.now() - job.started_at` is a
SQL `BinaryExpression`, which has no `total_seconds` attribute, so the line
raises `AttributeError`.  The `except Exception` at line 230 catches it,
logs, and the whole function returns `None` — no job row at all.  The
intended arithmetic at lines 211-213 (`remaining * (elapsed / (completed +
failed))`) is unreachable.  On the other branch `eta_seconds` stays `None`
and the row dict is returned. -/

/-- An `indexing_jobs` row as read by `get_indexing_job`. -/
structure JobRow where
  total : ℕ
  completed : ℕ
  failed : ℕ
  startedAt : Option ℚ

/-- What `get_indexing_job` delivers for an existing job, as far as the ETA
is concerned: either the call returns no row at all (its `except Exception`
handler swallowed an error and returned `None`), or it returns the job row
with the given `eta_seconds` field. -/
inductive JobEtaOutcome where
  | noRow
  | row (etaSeconds : Option ℚ)
  deriving DecidableEq, Repr

/-- ETA-relevant result of `get_indexing_job` on an existing job row
(postgres.py lines 199-234).  When `started_at` is unset or `completed = 0`
the guard at line 209 is false and the row is returned with a null
`eta_seconds`; when `started_at` is set and `completed > 0`, line 210
raises `AttributeError` (see the section comment) and the handler at line
230 makes the whole call return `None`. -/
def getIndexingJobEta (j : JobRow) : JobEtaOutcome :=
  match j.startedAt with
  | none => .row none
  | some _ =>
      if 0 < j.completed then .noRow
      else .row none

/-- `progress_percentage` of `get_indexing_job` (line 205). -/
def progressPercentage (j : JobRow) : ℚ :=
  if 0 < j.total then
    ((j.completed : ℚ) + (j.failed : ℚ)) / (j.total : ℚ) * 100
  else 0

/-! ### Temporal re-ranking arithmetic (services/search.py, `_rerank_results`)

Lines 159-231, per candidate whose temporal file exists (lines 178-210):

  `dtw_similarity  = 1 / (1 + dtw_dist)`
  `cosine_sim      = dot(q_avg, c_avg) / (norm(q_avg) * norm(c_avg) + 1e-8)`
  `var_similarity  = 1 - |q_var - c_var| / (q_var + c_var + 1e-8)`
  `temporal_score  = 0.5*dtw_similarity + 0.3*cosine_sim + 0.2*var_similarity`
  `combined_score  = 0.7*temporal_score + 0.3*candidate.similarity_score`

with `q_avg = Q.mean(axis=0)`, `q_var = Q.var(axis=0).mean()` and likewise
for the candidate.  The source's float32 arithmetic is modelled exactly
over ℝ.  The DTW distance comes from `_compute_dtw_distance` (lines
233-272), a call into the external `fastdtw` library with `radius=10` and
Euclidean row distance; it is kept as a parameter of the embedding. -/

/-- A temporal matrix: `T` time-step rows of dimension `D` (row `t` is
meaningful for `t < T`). -/
structure TemporalMat (D : ℕ) where
  T : ℕ
  row : ℕ → Fin D → ℝ

/-- Machine epsilon constant used throughout the source: `1e-8`. -/
noncomputable def eps : ℝ := 1 / 100000000

/-- Dot product of two `D`-dimensional vectors (`np.dot`). -/
noncomputable def dotV {D : ℕ} (x y : Fin D → ℝ) : ℝ := ∑ d, x d * y d

/-- Euclidean norm (`np.linalg.norm`). -/
noncomputable def normV {D : ℕ} (x : Fin D → ℝ) : ℝ :=
  Real.sqrt (∑ d, x d ^ 2)

/-- `M.mean(axis=0)`: per-dimension mean over the time steps. -/
noncomputable def colMean {D : ℕ} (A : TemporalMat D) : Fin D → ℝ :=
  fun d => (∑ t ∈ Finset.range A.T, A.row t d) / (A.T : ℝ)

/-- `M.var(axis=0)`: per-dimension population variance over the time
steps (numpy default `ddof=0`). -/
noncomputable def colVar {D : ℕ} (A : TemporalMat D) : Fin D → ℝ :=
  fun d => (∑ t ∈ Finset.range A.T, (A.row t d - colMean A d) ^ 2) / (A.T : ℝ)

/-- `M.var(axis=0).mean()`: mean over dimensions of the per-dimension
temporal variance. -/
noncomputable def meanVar {D : ℕ} (A : TemporalMat D) : ℝ :=
  (∑ d, colVar A d) / (D : ℝ)

/-- `cosine_sim` as computed at lines 189-191: note the `1e-8` added to the
product of the norms in the denominator. -/
noncomputable def cosineSimCode {D : ℕ} (x y : Fin D → ℝ) : ℝ :=
  dotV x y / (normV x * normV y + eps)

/-- `var_similarity` as computed at line 196. -/
noncomputable def varSimilarity (vq vc : ℝ) : ℝ :=
  1 - |vq - vc| / (vq + vc + eps)

/-- The blended score a candidate receives at lines 183-206, given the DTW
distance `dtwDist` returned by `_compute_dtw_distance`, the query and
candidate temporal matrices, and the candidate's similarity score from the
vector index. -/
noncomputable def rerankScore {D : ℕ} (dtwDist : ℝ) (Q C : TemporalMat D)
    (globalScore : ℝ) : ℝ :=
  let dtwSimilarity := 1 / (1 + dtwDist)
  let cosineSim := cosineSimCode (colMean Q) (colMean C)
  let varSim := varSimilarity (meanVar Q) (meanVar C)
  let temporalScore := 0.5 * dtwSimilarity + 0.3 * cosineSim + 0.2 * varSim
  0.7 * temporalScore + 0.3 * globalScore

/-- The §4.8.1 fusion formula exactly as the specification words it: the
cosine term is the true cosine of the two temporal row-means, with no
epsilon in its denominator.  Stated only to compare against `rerankScore`;
`s_var` and `s_dtw` carry the spec's own `ε = 1e-8` and `1/(1+d)` forms. -/
noncomputable def specFinalScore {D : ℕ} (dtwDist : ℝ) (Q C : TemporalMat D)
    (globalScore : ℝ) : ℝ :=
  let sDtw := 1 / (1 + dtwDist)
  let sCos := dotV (colMean Q) (colMean C) /
    (normV (colMean Q) * normV (colMean C))
  let sVar := varSimilarity (meanVar Q) (meanVar C)
  let sTemp := 0.5 * sDtw + 0.3 * sCos + 0.2 * sVar
  0.7 * sTemp + 0.3 * globalScore

/-- A search candidate as it flows through `_rerank_results`: its id, its
similarity score from the vector index, and the temporal matrix loaded from
the temporal store (`none` when the file does not exist, lines 212-214). -/
structure Candidate (D : ℕ) where
  videoId : String
  similarityScore : ℝ
  temporal : Option (TemporalMat D)

/-- Per-candidate body of `_rerank_results` (lines 172-216): a candidate
with a temporal matrix gets the blended score; a candidate without one
keeps its original score.  `dtw` abstracts `_compute_dtw_distance`. -/
noncomputable def rerankCandidate {D : ℕ}
    (dtw : TemporalMat D → TemporalMat D → ℝ) (Q : TemporalMat D)
    (c : Candidate D) : Candidate D :=
  match c.temporal with
  | none => c
  | some ct => { c with similarityScore := rerankScore (dtw Q ct) Q ct c.similarityScore }

open scoped Classical in
/-- `_rerank_results`: score every candidate, sort by the updated scores in
descending order (line 223; Python's stable sort), truncate to `top_k`
(line 226). -/
noncomputable def rerankResults {D : ℕ}
    (dtw : TemporalMat D → TemporalMat D → ℝ) (Q : TemporalMat D)
    (cands : List (Candidate D)) (topK : ℕ) : List (Candidate D) :=
  (((cands.map (rerankCandidate dtw Q)).mergeSort
      (fun a b => decide (b.similarityScore ≤ a.similarityScore))).take topK)

/-- Modelled from the spec: `db/vector_db.py` is absent from the source
tree; §4.2 states that the vector index reports
`similarity score = (1 + cosine) / 2 clipped to [0, 1]`. -/
noncomputable def vectorIndexScore (cosine : ℝ) : ℝ :=
  min 1 (max 0 ((1 + cosine) / 2))

/-! ### Anomaly detection (services/anomaly_detection.py)

`detect_anomaly` (lines 75-136): from the temporal matrix it computes the
per-dimension variance, the scalar motion magnitude (mean row-norm of the
first differences, lines 97-98), the two z-scores (lines 102-113), the
combined score (line 116) and the flag (line 119).  Both `detect_anomaly`
(lines 86-87) and `detect_temporal_anomalies` (lines 149-150) raise
`ValueError` before calling the encoder when `self.baseline_features` is
empty, and neither method writes `self.baseline_features`. -/

/-- Baseline statistics held in `self.baseline_features`. -/
structure Baseline (D : ℕ) where
  meanTemporalVariance : Fin D → ℝ
  stdTemporalVariance : Fin D → ℝ
  meanMotionMagnitude : ℝ
  stdMotionMagnitude : ℝ

/-- Scalar motion magnitude of a temporal matrix:
`np.linalg.norm(np.diff(M, axis=0), axis=1).mean()` — the mean over the
`T - 1` first-difference rows of their Euclidean norms. -/
noncomputable def motionMagnitude {D : ℕ} (A : TemporalMat D) : ℝ :=
  (∑ t ∈ Finset.range (A.T - 1),
      Real.sqrt (∑ d, (A.row (t + 1) d - A.row t d) ^ 2)) / ((A.T - 1 : ℕ) : ℝ)

/-- `motion_z_score` (lines 102-105). -/
noncomputable def motionZScore {D : ℕ} (b : Baseline D) (m : ℝ) : ℝ :=
  (m - b.meanMotionMagnitude) / (b.stdMotionMagnitude + eps)

/-- `variance_z_score` (lines 108-113): the mean over dimensions of
`|v - mean_v| / (std_v + 1e-8)`. -/
noncomputable def varianceZScore {D : ℕ} (b : Baseline D) (v : Fin D → ℝ) : ℝ :=
  (∑ d, |v d - b.meanTemporalVariance d| / (b.stdTemporalVariance d + eps)) / (D : ℝ)

/-- Result record produced by `detect_anomaly`. -/
structure AnomalyResult where
  anomalyScore : ℝ
  motionZ : ℝ
  varianceZ : ℝ
  isAnomaly : Prop

/-- Body of `detect_anomaly` after the encoder call (lines 90-130), on the
encoded temporal matrix `A` with detection threshold `threshold`. -/
noncomputable def detectAnomaly {D : ℕ} (b : Baseline D) (A : TemporalMat D)
    (threshold : ℝ) : AnomalyResult :=
  let temporalVariance := colVar A
  let m := motionMagnitude A
  let mz := motionZScore b m
  let vz := varianceZScore b temporalVariance
  let score := (|mz| + vz) / 2
  ⟨score, mz, vz, score > threshold⟩

/-- Default `threshold` parameter of `detect_anomaly` (line 75). -/
def defaultThreshold : ℝ := 2

/-- Detector state: `self.baseline_features`, `none` for the empty dict. -/
structure DetectorState (D : ℕ) where
  baseline : Option (Baseline D)

/-- One anomalous window reported by `detect_temporal_anomalies`. -/
structure WindowAnomaly where
  frameStart : ℕ
  frameEnd : ℕ
  timestampStart : ℝ
  timestampEnd : ℝ
  motionZ : ℝ

/-- Motion magnitude of the window of `windowSize` rows starting at `i`
(lines 159-163). -/
noncomputable def windowMotion {D : ℕ} (A : TemporalMat D) (i windowSize : ℕ) : ℝ :=
  (∑ j ∈ Finset.range (windowSize - 1),
      Real.sqrt (∑ d, (A.row (i + j + 1) d - A.row (i + j) d) ^ 2)) /
    ((windowSize - 1 : ℕ) : ℝ)

open scoped Classical in
/-- Body of `detect_temporal_anomalies` after the encoder call (lines
152-184): slide a window over the temporal matrix and report windows whose
motion z-score exceeds 2 in absolute value. -/
noncomputable def temporalAnomalies {D : ℕ} (b : Baseline D) (A : TemporalMat D)
    (windowSize : ℕ) : List WindowAnomaly :=
  (List.range (A.T - windowSize + 1)).filterMap fun i =>
    let z := motionZScore b (windowMotion A i windowSize)
    if |z| > 2 then
      some ⟨i, i + windowSize, (i : ℝ) / (A.T : ℝ),
        ((i + windowSize : ℕ) : ℝ) / (A.T : ℝ), z⟩
    else none

/-- A call to `detect_anomaly` on a detector in state `s`: the guard at
lines 86-87 raises before the encoder runs when no baseline is established.
Returns the (unchanged) detector state, the result or error, and the number
of encoder invocations the call performed.  `A` is what the encoder would
return for the video. -/
noncomputable def detectAnomalyCall {D : ℕ} (s : DetectorState D)
    (A : TemporalMat D) (threshold : ℝ) :
    DetectorState D × Except String AnomalyResult × ℕ :=
  match s.baseline with
  | none =>
      (s, Except.error "Baseline not established. Call establish_baseline() first.", 0)
  | some b => (s, Except.ok (detectAnomaly b A threshold), 1)

/-- A call to `detect_temporal_anomalies` on a detector in state `s`: the
guard at lines 149-150 raises before the encoder runs when no baseline is
established. -/
noncomputable def detectTemporalAnomaliesCall {D : ℕ} (s : DetectorState D)
    (A : TemporalMat D) (windowSize : ℕ) :
    DetectorState D × Except String (List WindowAnomaly) × ℕ :=
  match s.baseline with
  | none =>
      (s, Except.error "Baseline not established. Call establish_baseline() first.", 0)
  | some b => (s, Except.ok (temporalAnomalies b A windowSize), 1)

/-! ## Theorems -/

/-! ### Helper lemmas for the indexing-task model -/

lemma mem_insertNew_of_mem {x y : String} {l : List String} (h : x ∈ l) :
    x ∈ insertNew y l := by
  unfold insertNew
  split <;> simp [h]

lemma vector_mem_runOps {x : String} (ops : List StoreOp) :
    ∀ s : Stores, x ∈ s.vector → x ∈ (runOps s ops).vector := by
  induction ops with
  | nil => intro s h; exact h
  | cons op rest ih =>
      intro s h
      refine ih (applyOp s op) ?_
      cases op <;> simp [applyOp, mem_insertNew_of_mem, h]

lemma temporal_mem_runOps {x : String} (ops : List StoreOp) :
    ∀ s : Stores, x ∈ s.temporal → x ∈ (runOps s ops).temporal := by
  induction ops with
  | nil => intro s h; exact h
  | cons op rest ih =>
      intro s h
      refine ih (applyOp s op) ?_
      cases op <;> simp [applyOp, mem_insertNew_of_mem, h]

/-! ### C1: artifacts left behind by a failed attempt -/

lemma threadPotential_le_one (pc : QPC) : threadPotential pc ≤ 1 := by
  cases pc <;> simp [threadPotential]

/-- One step of one thread never increases the charged-encodes-plus-potential
measure of any slot. -/
lemma step_encode_bound (j : ℕ) (st : CacheSt) (t : QThread) (i : ℕ) :
    ((stepThread j st t).1.encodeLog.filter (fun p => p.1 = i)).length +
      (if i = j then threadPotential (stepThread j st t).2.pc else 0) ≤
    (st.encodeLog.filter (fun p => p.1 = i)).length +
      (if i = j then threadPotential t.pc else 0) := by
  cases hpc : t.pc
  case checkMem =>
    simp only [stepThread, hpc]
    split <;> refine Nat.add_le_add_left ?_ _ <;> split <;> simp [threadPotential]
  case checkDisk =>
    simp only [stepThread, hpc]
    split <;> refine Nat.add_le_add_left ?_ _ <;> split <;> simp [threadPotential]
  case encodeRun =>
    simp only [stepThread, hpc]
    by_cases hij : i = j
    · subst hij
      simp [List.filter_append, threadPotential]
    · have hji : ¬ j = i := fun h => hij h.symm
      simp [List.filter_append, threadPotential, hij, hji]
  case writeDisk =>
    simp only [stepThread, hpc]
    refine Nat.add_le_add_left ?_ _
    split <;> simp [threadPotential]
  case writeMem =>
    simp only [stepThread, hpc]
    refine Nat.add_le_add_left ?_ _
    split <;> simp [threadPotential]
  case finished =>
    simp only [stepThread, hpc]
    exact le_refl _

lemma cacheInv_step {sys : QSys} (h : CacheInv sys) (j : ℕ) :
    CacheInv (schedStep sys j) := by
  unfold schedStep
  cases hget : sys.threads[j]? with
  | none => simpa using h
  | some t =>
      have hlt : j < sys.threads.length := by
        by_contra hle
        rw [List.getElem?_eq_none (Nat.le_of_not_lt hle)] at hget
        exact Option.noConfusion hget
      intro i
      have hb := step_encode_bound j sys.st t i
      by_cases hij : i = j
      · subst hij
        have hpa : potentialAt ⟨(stepThread i sys.st t).1,
            sys.threads.set i (stepThread i sys.st t).2⟩ i =
            threadPotential (stepThread i sys.st t).2.pc := by
          unfold potentialAt
          simp [List.getElem?_set_self, hlt]
        have hpa0 : potentialAt sys i = threadPotential t.pc := by
          unfold potentialAt
          simp [hget]
        simp only [if_pos rfl] at hb
        calc encodesOf ⟨(stepThread i sys.st t).1,
              sys.threads.set i (stepThread i sys.st t).2⟩ i +
              potentialAt ⟨(stepThread i sys.st t).1,
                sys.threads.set i (stepThread i sys.st t).2⟩ i
            = ((stepThread i sys.st t).1.encodeLog.filter
                (fun p => p.1 = i)).length +
              threadPotential (stepThread i sys.st t).2.pc := by
              rw [hpa]; rfl
          _ ≤ (sys.st.encodeLog.filter (fun p => p.1 = i)).length +
              threadPotential t.pc := hb
          _ = encodesOf sys i + potentialAt sys i := by rw [hpa0]; rfl
          _ ≤ 1 := h i
      · have hpa : potentialAt ⟨(stepThread j sys.st t).1,
            sys.threads.set j (stepThread j sys.st t).2⟩ i = potentialAt sys i := by
          unfold potentialAt
          rw [List.getElem?_set_ne (fun hji => hij hji.symm)]
        simp only [if_neg hij, Nat.add_zero] at hb
        calc encodesOf ⟨(stepThread j sys.st t).1,
              sys.threads.set j (stepThread j sys.st t).2⟩ i +
              potentialAt ⟨(stepThread j sys.st t).1,
                sys.threads.set j (stepThread j sys.st t).2⟩ i
            = ((stepThread j sys.st t).1.encodeLog.filter
                (fun p => p.1 = i)).length + potentialAt sys i := by
              rw [hpa]; rfl
          _ ≤ (sys.st.encodeLog.filter (fun p => p.1 = i)).length +
              potentialAt sys i := Nat.add_le_add_right hb _
          _ = encodesOf sys i + potentialAt sys i := rfl
          _ ≤ 1 := h i

lemma cacheInv_runSched {sys : QSys} (h : CacheInv sys) (schedule : List ℕ) :
    CacheInv (runSched sys schedule) := by
  induction schedule generalizing sys with
  | nil => exact h
  | cons j rest ih => exact ih (cacheInv_step h j)

lemma cacheInv_init (mem disk : List String) (threads : List QThread) :
    CacheInv ⟨⟨mem, disk, []⟩, threads⟩ := by
  intro i
  have : encodesOf ⟨⟨mem, disk, []⟩, threads⟩ i = 0 := rfl
  rw [this, Nat.zero_add]
  unfold potentialAt
  cases (⟨⟨mem, disk, []⟩, threads⟩ : QSys).threads[i]? with
  | none => exact le_refl 1
  | some t => exact threadPotential_le_one t.pc

/-- C4, counterexample.  The claim says that among concurrent query encodes
for one fingerprint the encoder is invoked at most once.  Two concurrent
queries for fingerprint "f" start against empty caches; under the
interleaving that alternates them one atomic action at a time, BOTH pass
the memory check, BOTH pass the disk check, and BOTH invoke the encoder:
two encoder invocations for the same fingerprint.  `_encode_query_video`
enters no per-fingerprint critical section and never re-checks the caches
before encoding. -/
theorem c4_counterexample :
    encodesFor (runSched ⟨⟨[], [], []⟩,
      [⟨"f", .checkMem⟩, ⟨"f", .checkMem⟩]⟩ [0, 1, 0, 1, 0, 1]) "f" = 2 := by
  decide

/-- C4, amended: the query cache provides no per-fingerprint encode
coalescing.  What does hold: (i) each individual query thread invokes the
encoder at most once — so `n` concurrent queries on one fingerprint cause
at most `n` encoder invocations, not at most one; (ii) threads never block
one another: every step of a non-finished thread strictly decreases its
remaining-work rank, whatever the shared state, so unrelated fingerprints
(and related ones) always proceed in parallel. -/
theorem c4_amended (mem disk : List String) (threads : List QThread)
    (schedule : List ℕ) (i : ℕ) :
    encodesOf (runSched ⟨⟨mem, disk, []⟩, threads⟩ schedule) i ≤ 1 ∧
    (∀ (j : ℕ) (s : CacheSt) (t : QThread), t.pc ≠ .finished →
      pcRank (stepThread j s t).2.pc < pcRank t.pc) := by
  constructor
  · have h := cacheInv_runSched (cacheInv_init mem disk threads) schedule i
    exact le_trans (Nat.le_add_right _ _) h
  · intro j s t hpc
    cases hp : t.pc <;>
      first
        | exact absurd hp hpc
        | (simp only [stepThread, hp]; (try split) <;> simp [pcRank])

/-- C4, witness for `c4_amended`: two threads on fingerprint "f" under the
alternating schedule — each performed at most one encode — and a concrete
non-finished thread strictly advances. -/
theorem c4_witness :
    encodesOf (runSched ⟨⟨[], [], []⟩,
      [⟨"f", .checkMem⟩, ⟨"f", .checkMem⟩]⟩ [0, 1, 0, 1, 0, 1]) 0 ≤ 1 ∧
    pcRank (stepThread 0 ⟨[], [], []⟩ ⟨"f", .checkMem⟩).2.pc <
      pcRank QPC.checkMem :=
  ⟨(c4_amended [] [] [⟨"f", .checkMem⟩, ⟨"f", .checkMem⟩] [0, 1, 0, 1, 0, 1] 0).1,
   (c4_amended [] [] [] [] 0).2 0 ⟨[], [], []⟩ ⟨"f", .checkMem⟩ (by decide)⟩

/-! ### C7: job ETA -/

/-- C7, counterexample.  The claim says the reported ETA equals
`elapsed × remaining / done` and is null exactly when done = 0.  Two
refutations on concrete jobs: (i) a started job with total = 10,
completed = 0, failed = 3 has done = 3 ≠ 0, yet the row is returned with a
null ETA, because the guard at line 209 tests `job.completed > 0`, not
done > 0; (ii) a started job with completed = 2, failed = 1 enters the ETA
branch, where line 210 raises `AttributeError` (`.total_seconds()` on a
SQLAlchemy expression) and the except handler makes `get_indexing_job`
return `None` — the formula value is never reported for any job. -/
theorem c7_counterexample :
    getIndexingJobEta ⟨10, 0, 3, some 0⟩ = JobEtaOutcome.row none ∧
    (⟨10, 0, 3, some 0⟩ : JobRow).completed + (⟨10, 0, 3, some 0⟩ : JobRow).failed ≠ 0 ∧
    getIndexingJobEta ⟨10, 2, 1, some 0⟩ = JobEtaOutcome.noRow := by
  exact ⟨rfl, by decide, rfl⟩

/-- C7, amended: `get_indexing_job` never reports a numeric ETA.  When the
job has not started, or has started with `completed = 0` (even while
`failed > 0`, so done ≠ 0), the job row is returned with a null
`eta_seconds`; when the job has started and `completed > 0`, the ETA
computation at line 210 raises `AttributeError` before reaching the
`remaining × elapsed / done` arithmetic of lines 211-213, the
`except Exception` at line 230 swallows it, and the whole call returns
`None` — no row at all.  Nullness of the ETA is therefore not governed by
done = completed + failed at all. -/
theorem c7_amended (j : JobRow) (t0 : ℚ) :
    (j.startedAt = none → getIndexingJobEta j = JobEtaOutcome.row none) ∧
    (j.startedAt = some t0 → j.completed = 0 →
      getIndexingJobEta j = JobEtaOutcome.row none) ∧
    (j.startedAt = some t0 → 0 < j.completed →
      getIndexingJobEta j = JobEtaOutcome.noRow) := by
  refine ⟨fun hs => ?_, fun hs hc => ?_, fun hs hc => ?_⟩
  · simp [getIndexingJobEta, hs]
  · simp [getIndexingJobEta, hs, hc]
  · simp [getIndexingJobEta, hs, hc]

/-- C7, witness for `c7_amended`: a started job with total = 10,
completed = 2, failed = 1 (the crash branch), and a started job with
completed = 0, failed = 3 (the null-ETA branch). -/
theorem c7_witness :
    getIndexingJobEta ⟨10, 2, 1, some 0⟩ = JobEtaOutcome.noRow ∧
    getIndexingJobEta ⟨10, 0, 3, some 0⟩ = JobEtaOutcome.row none :=
  ⟨(c7_amended ⟨10, 2, 1, some 0⟩ 0).2.2 rfl (by decide),
   (c7_amended ⟨10, 0, 3, some 0⟩ 0).2.1 rfl rfl⟩

/-! ### C8: search with top_k = 0 -/

/-- C8, counterexample.  The claim says a `top_k = 0` search returns an
empty list without invoking the encoder.  With both cache tiers empty the
pipeline still performs one encoder invocation for the query before
truncating the results to zero: `SearchService.search` has no early return
for `top_k = 0` and unconditionally calls `_encode_query_video` first. -/
theorem c8_counterexample :
    (searchRun ⟨[], []⟩ "q" 0 false ([] : List ℕ) id).1 = [] ∧
    (searchRun ⟨[], []⟩ "q" 0 false ([] : List ℕ) id).2 = 1 := by
  exact ⟨rfl, rfl⟩

/-- C8, amended: a search with `top_k = 0` returns an empty result list,
but the query is still encoded unless a cache tier holds its fingerprint:
the encoder runs exactly once when both tiers miss and not at all on a
memory hit, independent of `top_k`. -/
theorem c8_amended {α : Type} (c : SearchCaches) (fp : String) (rerank : Bool)
    (cands : List α) (rerankFn : List α → List α) :
    (searchRun c fp 0 rerank cands rerankFn).1 = [] ∧
    (fp ∉ c.mem → fp ∉ c.disk → (searchRun c fp 0 rerank cands rerankFn).2 = 1) ∧
    (fp ∈ c.mem → (searchRun c fp 0 rerank cands rerankFn).2 = 0) := by
  refine ⟨?_, fun h1 h2 => ?_, fun h1 => ?_⟩
  · simp only [searchRun]
    split <;> simp
  · simp [searchRun, h1, h2]
  · simp [searchRun, h1]

/-- C8, witness for `c8_amended` with empty caches. -/
theorem c8_witness :
    (searchRun ⟨[], []⟩ "q" 0 false ([] : List ℕ) id).1 = [] ∧
    (searchRun ⟨[], []⟩ "q" 0 false ([] : List ℕ) id).2 = 1 :=
  ⟨(c8_amended ⟨[], []⟩ "q" false [] id).1,
   (c8_amended ⟨[], []⟩ "q" false [] id).2.1 (by decide) (by decide)⟩

/-! ### C3: re-ranking score formula -/

/-- C3, counterexample.  The claim defines `s_cos` as the cosine of the two
temporal row-means.  The source divides by `norm·norm + 1e-8`, not by
`norm·norm`.  For a query and candidate both equal to the single-row matrix
[[2]] (whose row-mean has norm 2 and exact cosine 1) and DTW distance 0
(identical sequences have Euclidean DTW distance 0), the score the code
computes differs from the claimed fusion formula. -/
theorem c3_counterexample :
    rerankScore 0 (⟨1, fun _ _ => 2⟩ : TemporalMat 1) ⟨1, fun _ _ => 2⟩ (1 / 2) ≠
    specFinalScore 0 (⟨1, fun _ _ => 2⟩ : TemporalMat 1) ⟨1, fun _ _ => 2⟩ (1 / 2) := by
  have h1 : colMean (⟨1, fun _ _ => 2⟩ : TemporalMat 1) = fun _ : Fin 1 => (2 : ℝ) := by
    funext d
    simp [colMean]
  have h2 : dotV (colMean (⟨1, fun _ _ => 2⟩ : TemporalMat 1))
      (colMean (⟨1, fun _ _ => 2⟩ : TemporalMat 1)) = 4 := by
    rw [h1]
    simp [dotV]
    norm_num
  have h3 : normV (colMean (⟨1, fun _ _ => 2⟩ : TemporalMat 1)) = 2 := by
    rw [h1]
    unfold normV
    rw [Fin.sum_univ_one]
    exact Real.sqrt_sq (by norm_num)
  have h4 : meanVar (⟨1, fun _ _ => 2⟩ : TemporalMat 1) = 0 := by
    simp [meanVar, colVar, h1, colMean]
  unfold rerankScore specFinalScore cosineSimCode varSimilarity
  rw [h2, h3, h4]
  unfold eps
  norm_num

/-- C3, amended: for every candidate whose temporal matrix is available
during re-ranking, the final similarity score equals
`0.7·s_temp + 0.3·s_global` with `s_temp = 0.5·s_dtw + 0.3·s_cos +
0.2·s_var`, `s_dtw = 1/(1 + d_DTW)`, `s_var = 1 − |v_q − v_c|/(v_q + v_c +
ε)`, `s_global` the candidate's vector-index score — but `s_cos` is
`⟨q̄,c̄⟩ / (‖q̄‖·‖c̄‖ + ε)`, the cosine of the temporal row-means with
`ε = 1e-8` added to the denominator, not the exact cosine.  `d_DTW` is the
value `_compute_dtw_distance` returns (the external `fastdtw` call with
radius 10 and Euclidean row distance), kept abstract as `dtw`. -/
theorem c3_amended {D : ℕ} (dtw : TemporalMat D → TemporalMat D → ℝ)
    (Q : TemporalMat D) (c : Candidate D) (ct : TemporalMat D)
    (h : c.temporal = some ct) :
    (rerankCandidate dtw Q c).similarityScore =
      0.7 * (0.5 * (1 / (1 + dtw Q ct)) +
        0.3 * (dotV (colMean Q) (colMean ct) /
          (normV (colMean Q) * normV (colMean ct) + eps)) +
        0.2 * (1 - |meanVar Q - meanVar ct| / (meanVar Q + meanVar ct + eps))) +
      0.3 * c.similarityScore := by
  simp [rerankCandidate, h, rerankScore, cosineSimCode, varSimilarity]

/-- C3, witness for `c3_amended`: a candidate carrying the single-row
temporal matrix [[2]], re-ranked against the same query matrix. -/
theorem c3_witness :
    (rerankCandidate (fun _ _ => 0) (⟨1, fun _ _ => 2⟩ : TemporalMat 1)
        ⟨"c1", 1 / 2, some ⟨1, fun _ _ => 2⟩⟩).similarityScore =
      0.7 * (0.5 * (1 / (1 + 0)) +
        0.3 * (dotV (colMean (⟨1, fun _ _ => 2⟩ : TemporalMat 1))
            (colMean (⟨1, fun _ _ => 2⟩ : TemporalMat 1)) /
          (normV (colMean (⟨1, fun _ _ => 2⟩ : TemporalMat 1)) *
            normV (colMean (⟨1, fun _ _ => 2⟩ : TemporalMat 1)) + eps)) +
        0.2 * (1 - |meanVar (⟨1, fun _ _ => 2⟩ : TemporalMat 1) -
            meanVar (⟨1, fun _ _ => 2⟩ : TemporalMat 1)| /
          (meanVar (⟨1, fun _ _ => 2⟩ : TemporalMat 1) +
            meanVar (⟨1, fun _ _ => 2⟩ : TemporalMat 1) + eps))) +
      0.3 * (1 / 2) :=
  c3_amended (fun _ _ => 0) ⟨1, fun _ _ => 2⟩ ⟨"c1", 1 / 2, some ⟨1, fun _ _ => 2⟩⟩
    ⟨1, fun _ _ => 2⟩ rfl

/-! ### C6: score bounds -/

lemma sumSq_nonneg {D : ℕ} (x : Fin D → ℝ) : 0 ≤ ∑ d, x d ^ 2 :=
  Finset.sum_nonneg fun _ _ => sq_nonneg _

lemma normV_nonneg {D : ℕ} (x : Fin D → ℝ) : 0 ≤ normV x :=
  Real.sqrt_nonneg _

/-- Cauchy-Schwarz for the embedded dot product and norm. -/
lemma abs_dotV_le {D : ℕ} (x y : Fin D → ℝ) :
    |dotV x y| ≤ normV x * normV y := by
  have h := Finset.sum_mul_sq_le_sq_mul_sq Finset.univ x y
  calc |dotV x y| = Real.sqrt (dotV x y ^ 2) := (Real.sqrt_sq_eq_abs _).symm
    _ ≤ Real.sqrt ((∑ d, x d ^ 2) * ∑ d, y d ^ 2) := Real.sqrt_le_sqrt h
    _ = normV x * normV y := Real.sqrt_mul (sumSq_nonneg x) _

/-- The code's cosine has absolute value strictly below 1, thanks to the
`1e-8` it adds to the denominator. -/
lemma abs_cosineSimCode_lt_one {D : ℕ} (x y : Fin D → ℝ) :
    |cosineSimCode x y| < 1 := by
  have hN : 0 ≤ normV x * normV y := mul_nonneg (normV_nonneg x) (normV_nonneg y)
  have heps : (0 : ℝ) < eps := by unfold eps; norm_num
  have hden : 0 < normV x * normV y + eps := by linarith
  rw [cosineSimCode, abs_div, abs_of_pos hden, div_lt_one hden]
  calc |dotV x y| ≤ normV x * normV y := abs_dotV_le x y
    _ < normV x * normV y + eps := by linarith

lemma colVar_nonneg {D : ℕ} (A : TemporalMat D) (d : Fin D) : 0 ≤ colVar A d :=
  div_nonneg (Finset.sum_nonneg fun _ _ => sq_nonneg _) (Nat.cast_nonneg _)

lemma meanVar_nonneg {D : ℕ} (A : TemporalMat D) : 0 ≤ meanVar A :=
  div_nonneg (Finset.sum_nonneg fun d _ => colVar_nonneg A d) (Nat.cast_nonneg _)

/-- `var_similarity` lands in (0, 1] whenever both variances are
nonnegative, which they always are. -/
lemma varSimilarity_mem {vq vc : ℝ} (hq : 0 ≤ vq) (hc : 0 ≤ vc) :
    0 < varSimilarity vq vc ∧ varSimilarity vq vc ≤ 1 := by
  have heps : (0 : ℝ) < eps := by unfold eps; norm_num
  have hden : 0 < vq + vc + eps := by linarith
  have habs : |vq - vc| ≤ vq + vc := by
    rw [abs_sub_le_iff]
    constructor <;> linarith
  have hlt : |vq - vc| / (vq + vc + eps) < 1 := by
    rw [div_lt_one hden]
    linarith
  have hge : 0 ≤ |vq - vc| / (vq + vc + eps) :=
    div_nonneg (abs_nonneg _) hden.le
  unfold varSimilarity
  constructor <;> linarith

/-- C6, counterexample.  The claim says every user-visible similarity score
lies in [0, 1].  Re-rank a candidate whose vector-index score is 0 (the
clipped score of an antipodal global vector) whose temporal matrix is the
single row [[-100]] against a query whose temporal matrix is [[100]], with
DTW distance 200 (the Euclidean DTW distance of those two sequences): the
blended score the user sees is negative. -/
theorem c6_counterexample :
    (rerankCandidate (fun _ _ => 200) (⟨1, fun _ _ => 100⟩ : TemporalMat 1)
        ⟨"c1", 0, some ⟨1, fun _ _ => -100⟩⟩).similarityScore < 0 := by
  have hq : colMean (⟨1, fun _ _ => 100⟩ : TemporalMat 1) = fun _ : Fin 1 => (100 : ℝ) := by
    funext d
    simp [colMean]
  have hc : colMean (⟨1, fun _ _ => -100⟩ : TemporalMat 1) = fun _ : Fin 1 => (-100 : ℝ) := by
    funext d
    simp [colMean]
  have hdot : dotV (colMean (⟨1, fun _ _ => 100⟩ : TemporalMat 1))
      (colMean (⟨1, fun _ _ => -100⟩ : TemporalMat 1)) = -10000 := by
    rw [hq, hc]
    simp [dotV]
    norm_num
  have hnq : normV (colMean (⟨1, fun _ _ => 100⟩ : TemporalMat 1)) = 100 := by
    rw [hq]
    unfold normV
    rw [Fin.sum_univ_one]
    exact Real.sqrt_sq (by norm_num)
  have hnc : normV (colMean (⟨1, fun _ _ => -100⟩ : TemporalMat 1)) = 100 := by
    rw [hc]
    unfold normV
    rw [Fin.sum_univ_one]
    rw [show ((-100 : ℝ)) ^ 2 = 100 ^ 2 by norm_num]
    exact Real.sqrt_sq (by norm_num)
  have hvq : meanVar (⟨1, fun _ _ => 100⟩ : TemporalMat 1) = 0 := by
    simp [meanVar, colVar, colMean]
  have hvc : meanVar (⟨1, fun _ _ => -100⟩ : TemporalMat 1) = 0 := by
    simp [meanVar, colVar, colMean]
  show rerankScore 200 (⟨1, fun _ _ => 100⟩ : TemporalMat 1)
      (⟨1, fun _ _ => -100⟩ : TemporalMat 1) 0 < 0
  unfold rerankScore cosineSimCode varSimilarity
  rw [hdot, hnq, hnc, hvq, hvc]
  unfold eps
  norm_num

/-- C6, amended: the vector-index score `(1 + cosine)/2` clipped to [0, 1]
does lie in [0, 1]; the re-ranked blended score of a candidate with a
temporal matrix does NOT always stay in [0, 1] — it stays in the interval
(-0.21, 1) whenever the DTW distance is nonnegative and the candidate's
vector-index score is in [0, 1], and it can be negative (see the
counterexample), because the cosine term of the temporal fusion may be
negative. -/
theorem c6_amended {D : ℕ} (cosine dtwDist globalScore : ℝ)
    (Q C : TemporalMat D) (hd : 0 ≤ dtwDist) (hg0 : 0 ≤ globalScore)
    (hg1 : globalScore ≤ 1) :
    (0 ≤ vectorIndexScore cosine ∧ vectorIndexScore cosine ≤ 1) ∧
    (-(0.21 : ℝ) < rerankScore dtwDist Q C globalScore ∧
      rerankScore dtwDist Q C globalScore < 1) := by
  constructor
  · constructor
    · exact le_min zero_le_one (le_max_left 0 _)
    · exact min_le_left _ _
  · have hdtw1 : 1 / (1 + dtwDist) ≤ 1 := by
      rw [div_le_one (by linarith)]
      linarith
    have hdtw0 : 0 < 1 / (1 + dtwDist) := by positivity
    have hcos := abs_cosineSimCode_lt_one (colMean Q) (colMean C)
    rw [abs_lt] at hcos
    have hvar := varSimilarity_mem (meanVar_nonneg Q) (meanVar_nonneg C)
    unfold rerankScore
    constructor
    · nlinarith [hcos.1, hvar.1, hdtw0]
    · nlinarith [hcos.2, hvar.2, hdtw1]

/-- C6, witness for `c6_amended` at cosine -1, DTW distance 0, vector-index
score 1 and the single-row temporal matrix [[2]] on both sides. -/
theorem c6_witness :
    (0 ≤ vectorIndexScore (-1) ∧ vectorIndexScore (-1) ≤ 1) ∧
    (-(0.21 : ℝ) < rerankScore 0 (⟨1, fun _ _ => 2⟩ : TemporalMat 1)
        ⟨1, fun _ _ => 2⟩ 1 ∧
      rerankScore 0 (⟨1, fun _ _ => 2⟩ : TemporalMat 1) ⟨1, fun _ _ => 2⟩ 1 < 1) :=
  c6_amended (-1) 0 1 ⟨1, fun _ _ => 2⟩ ⟨1, fun _ _ => 2⟩ (by norm_num)
    (by norm_num) (by norm_num)

/-! ### C9: anomaly score -/

/-- C9: for every analyzed video (temporal matrix `A`) and established
baseline `b`, the anomaly score equals `(|z_motion| + z_variance) / 2`,
where `z_motion = (m - mean_m) / (std_m + ε)` on the motion magnitude `m`,
`z_variance` is the mean over dimensions of `|v - mean_v| / (std_v + ε)` on
the per-dimension temporal variances `v`, with `ε = 1e-8`; the video is
flagged anomalous if and only if the anomaly score exceeds the threshold,
whose default is 2.0. -/
theorem c9_confirmed {D : ℕ} (b : Baseline D) (A : TemporalMat D) (τ : ℝ) :
    (detectAnomaly b A τ).anomalyScore =
      (|(motionMagnitude A - b.meanMotionMagnitude) / (b.stdMotionMagnitude + eps)| +
        (∑ d, |colVar A d - b.meanTemporalVariance d| /
          (b.stdTemporalVariance d + eps)) / (D : ℝ)) / 2 ∧
    ((detectAnomaly b A τ).isAnomaly ↔ (detectAnomaly b A τ).anomalyScore > τ) ∧
    defaultThreshold = 2 ∧ eps = 1 / 100000000 :=
  ⟨rfl, Iff.rfl, rfl, rfl⟩

/-! ### C10: detection without a baseline -/

/-- C10: when no baseline has been established, both `detect_anomaly` and
`detect_temporal_anomalies` fail with the `ValueError` raised by their
guard, perform zero encoder invocations, and leave the detector's baseline
state unchanged. -/
theorem c10_confirmed {D : ℕ} (s : DetectorState D) (A B : TemporalMat D)
    (τ : ℝ) (W : ℕ) (h : s.baseline = none) :
    detectAnomalyCall s A τ =
      (s, Except.error "Baseline not established. Call establish_baseline() first.", 0) ∧
    detectTemporalAnomaliesCall s B W =
      (s, Except.error "Baseline not established. Call establish_baseline() first.", 0) := by
  unfold detectAnomalyCall detectTemporalAnomaliesCall
  rw [h]
  exact ⟨rfl, rfl⟩

/-- C10, witness for `c10_confirmed`: an empty-baseline detector over
dimension 1, probed with a zero temporal matrix, default threshold and
window size 16. -/
theorem c10_witness :
    detectAnomalyCall (⟨none⟩ : DetectorState 1) ⟨0, fun _ _ => 0⟩ 2 =
      (⟨none⟩, Except.error "Baseline not established. Call establish_baseline() first.", 0) ∧
    detectTemporalAnomaliesCall (⟨none⟩ : DetectorState 1) ⟨0, fun _ _ => 0⟩ 16 =
      (⟨none⟩, Except.error "Baseline not established. Call establish_baseline() first.", 0) :=
  c10_confirmed ⟨none⟩ ⟨0, fun _ _ => 0⟩ ⟨0, fun _ _ => 0⟩ 2 16 rfl

end MotionMatch

